import Mathlib

/-!
Verification of the MORE liquidation bot's core logic against its
natural-language specification.  The definitions below are a shallow
embedding of the bot's JavaScript source: `ethers` BigNumber values are
modelled as `Nat` (all quantities in the source are unsigned 256-bit
integers and every operation used — `mul`, `div`, `shr`, `and`, `min`,
comparisons — agrees with `Nat` arithmetic on in-range values; `div`
truncates in both), remote contract reads are modelled as explicit
environment functions returning `Option` values (`none` = the call
threw / reverted), and JavaScript's `undefined` / `null` distinction is
kept where it is observable.
-/

/-! ### Liquidation Sizing Engine (src/unnamed/part_000, lines 442-468 and 793-816) -/

/-- Close-factor health-factor threshold: `utils.parseEther('0.95')`, i.e.
0.95 in 18-decimal fixed point (src/unnamed/part_000 line 442). -/
def CLOSE_FACTOR_HF_THRESHOLD : Nat := 95 * 10 ^ 16

/-- Default close factor, 50 percent in basis points (src/unnamed/part_000 line 443). -/
def DEFAULT_LIQUIDATION_CLOSE_FACTOR : Nat := 5000

/-- Maximum close factor, 100 percent in basis points (src/unnamed/part_000 line 444). -/
def MAX_LIQUIDATION_CLOSE_FACTOR : Nat := 10000

/-- The close factor `calculateDebtToCover` picks for a health factor: the
`if (healthFactor.lt(CLOSE_FACTOR_HF_THRESHOLD))` branch of
src/unnamed/part_000 lines 450-458. -/
def closeFactorOf (healthFactor : Nat) : Nat :=
  if healthFactor < CLOSE_FACTOR_HF_THRESHOLD then MAX_LIQUIDATION_CLOSE_FACTOR
  else DEFAULT_LIQUIDATION_CLOSE_FACTOR

/-- `calculateDebtToCover(healthFactor, userDebtBalance)` of
src/unnamed/part_000 lines 447-468: picks the close factor from the health
factor and returns `userDebtBalance.mul(closeFactor).div(10000)`
(BigNumber `div` truncates, as `Nat` division does). -/
def calculateDebtToCover (healthFactor userDebtBalance : Nat) : Nat :=
  let closeFactor :=
    if healthFactor < CLOSE_FACTOR_HF_THRESHOLD then MAX_LIQUIDATION_CLOSE_FACTOR
    else DEFAULT_LIQUIDATION_CLOSE_FACTOR
  userDebtBalance * closeFactor / 10000

/-- `ethers.constants.MaxUint256`, the sentinel passed as `debtToCover` when
the close-factor amount is to be enforced by the protocol itself. -/
def maxUint256 : Nat := 2 ^ 256 - 1

/-- `checkedBal` of src/unnamed/part_000 lines 808-811:
`BigNumber.min(maxDebtToCoverByCloseFactor, debtBalanceInmToken)`. -/
def checkedBal (healthFactor userDebtBalance debtBalanceInmToken : Nat) : Nat :=
  min (calculateDebtToCover healthFactor userDebtBalance) debtBalanceInmToken

/-- `cover` of src/unnamed/part_000 lines 814-816:
`checkedBal.eq(maxDebtToCoverByCloseFactor) ? constants.MaxUint256 : checkedBal`. -/
def coverParam (healthFactor userDebtBalance debtBalanceInmToken : Nat) : Nat :=
  if checkedBal healthFactor userDebtBalance debtBalanceInmToken
      = calculateDebtToCover healthFactor userDebtBalance
  then maxUint256
  else checkedBal healthFactor userDebtBalance debtBalanceInmToken

/-- The liquidation parameter object the engine submits (the fields the
sizing step determines; `lParam` of src/unnamed/part_000 lines 915-922 and
src/index.js lines 298-305). -/
structure LParam where
  amount : Nat
  transferAmount : Nat
  debtToCover : Nat
  deriving DecidableEq, Repr

/-- `lParam` as built by src/unnamed/part_000 lines 915-922 from the sizing
step's outputs. -/
def lParamSizing (healthFactor userDebtBalance debtBalanceInmToken : Nat) : LParam :=
  { amount := checkedBal healthFactor userDebtBalance debtBalanceInmToken
    transferAmount := 0
    debtToCover := coverParam healthFactor userDebtBalance debtBalanceInmToken }

/-- `checkedBal` of src/index.js lines 285-287 (no close factor there):
`increasedDebtBal.gt(debtBalanceInmToken) ? debtBalanceInmToken : increasedDebtBal`. -/
def checkedBalIdx (increasedDebtBal debtBalanceInmToken : Nat) : Nat :=
  if debtBalanceInmToken < increasedDebtBal then debtBalanceInmToken else increasedDebtBal

/-- `cover` of src/index.js lines 288-290:
`increasedDebtBal.gt(debtBalanceInmToken) ? debtBalanceInmToken : constants.MaxUint256`. -/
def coverIdx (increasedDebtBal debtBalanceInmToken : Nat) : Nat :=
  if debtBalanceInmToken < increasedDebtBal then debtBalanceInmToken else maxUint256

/-- `lParam` as built by src/index.js lines 298-305 and submitted via
`botContract.connect(liquidator).execute(lParam, sParam)`. -/
def lParamIdx (increasedDebtBal debtBalanceInmToken : Nat) : LParam :=
  { amount := checkedBalIdx increasedDebtBal debtBalanceInmToken
    transferAmount := 0
    debtToCover := coverIdx increasedDebtBal debtBalanceInmToken }

/-- C1: for every health factor 0 < h < 1e18, debt balance d and available
liquidity a, the sizing step's final cover amount (`checkedBal`) equals
min(closeFactor(h)*d/10000, a); the submitted `debtToCover` is exactly the
capped amount a when a is the binding term (a < close-factor amount), and
the MaxUint256 sentinel when the close-factor amount is the binding term. -/
theorem sizing_cover_amount_and_sentinel (h d a : Nat)
    (h0 : 0 < h) (h1 : h < 10 ^ 18) :
    checkedBal h d a = min (calculateDebtToCover h d) a
      ∧ (a < calculateDebtToCover h d → coverParam h d a = a)
      ∧ (calculateDebtToCover h d ≤ a → coverParam h d a = maxUint256) := by
  refine ⟨rfl, fun hlt => ?_, fun hle => ?_⟩
  · unfold coverParam checkedBal
    split_ifs with hc
    · omega
    · omega
  · unfold coverParam checkedBal
    split_ifs with hc
    · rfl
    · exfalso
      unfold checkedBal at hc
      omega

/-- Witness for C1 at h = 0.9e18, d = 1000, a = 500: hypotheses hold and the
cover amount is the capped 500. -/
theorem sizing_cover_amount_and_sentinel_witness :
    checkedBal (9 * 10 ^ 17) 1000 500
        = min (calculateDebtToCover (9 * 10 ^ 17) 1000) 500
      ∧ (500 < calculateDebtToCover (9 * 10 ^ 17) 1000
          → coverParam (9 * 10 ^ 17) 1000 500 = 500)
      ∧ (calculateDebtToCover (9 * 10 ^ 17) 1000 ≤ 500
          → coverParam (9 * 10 ^ 17) 1000 500 = maxUint256) :=
  sizing_cover_amount_and_sentinel (9 * 10 ^ 17) 1000 500 (by decide) (by decide)

/-- C2 counterexample: at h = 0.9e18, d = 1000, a = 2000 the close-factor
amount 1000 is the binding term (a is not binding, 2000 is not below 1000),
yet the code returns the MaxUint256 sentinel — the claim "sentinel returned
iff a is the binding term" is false here. -/
theorem cover_sentinel_claim_cex :
    ¬(2000 < calculateDebtToCover (9 * 10 ^ 17) 1000)
      ∧ coverParam (9 * 10 ^ 17) 1000 2000 = maxUint256 := by
  constructor
  · decide
  · decide

/-- C2 amended: for a below the MaxUint256 sentinel, the sizing step returns
the sentinel as `debtToCover` iff the close-factor amount is the binding
term of min(closeFactor(h)*d/10000, a), i.e. iff closeFactor(h)*d/10000 ≤ a
(the opposite binding direction from the claim). -/
theorem cover_sentinel_iff (h d a : Nat) (ha : a < maxUint256) :
    coverParam h d a = maxUint256 ↔ calculateDebtToCover h d ≤ a := by
  unfold coverParam checkedBal
  split_ifs with hc
  · exact ⟨fun _ => by omega, fun _ => rfl⟩
  · constructor
    · intro hEq
      omega
    · intro hle
      exfalso
      omega

/-- Witness for C2's amended statement at h = 0.9e18, d = 1000, a = 2000. -/
theorem cover_sentinel_iff_witness :
    coverParam (9 * 10 ^ 17) 1000 2000 = maxUint256
      ↔ calculateDebtToCover (9 * 10 ^ 17) 1000 ≤ 2000 :=
  cover_sentinel_iff (9 * 10 ^ 17) 1000 2000 (by decide)

/-- C3: for 0 < h < 1e18, `calculateDebtToCover` uses close factor 10000
basis points iff h < 0.95e18 and 5000 basis points otherwise, and returns
exactly d * closeFactor / 10000 in truncating integer arithmetic. -/
theorem calculateDebtToCover_close_factor (h d : Nat)
    (h0 : 0 < h) (h1 : h < 10 ^ 18) :
    (closeFactorOf h = 10000 ↔ h < 95 * 10 ^ 16)
      ∧ (closeFactorOf h = 5000 ↔ 95 * 10 ^ 16 ≤ h)
      ∧ calculateDebtToCover h d = d * closeFactorOf h / 10000 := by
  unfold closeFactorOf calculateDebtToCover
  unfold CLOSE_FACTOR_HF_THRESHOLD MAX_LIQUIDATION_CLOSE_FACTOR
    DEFAULT_LIQUIDATION_CLOSE_FACTOR
  split_ifs with hlt
  · exact ⟨by omega, by omega, rfl⟩
  · exact ⟨by omega, by omega, rfl⟩

/-- Witness for C3 at h = 0.97e18, d = 1000: close factor 5000, result 500. -/
theorem calculateDebtToCover_close_factor_witness :
    (closeFactorOf (97 * 10 ^ 16) = 10000 ↔ 97 * 10 ^ 16 < 95 * 10 ^ 16)
      ∧ (closeFactorOf (97 * 10 ^ 16) = 5000 ↔ 95 * 10 ^ 16 ≤ 97 * 10 ^ 16)
      ∧ calculateDebtToCover (97 * 10 ^ 16) 1000
          = 1000 * closeFactorOf (97 * 10 ^ 16) / 10000 :=
  calculateDebtToCover_close_factor (97 * 10 ^ 16) 1000 (by decide) (by decide)

/-- C4: the code has no zero-liquidity short-circuit.  With available
liquidity a = 0 and debt d = 1000, both the live src/index.js path and the
close-factor path of src/unnamed/part_000 build a liquidation submission
whose covered amount and debtToCover are 0, instead of refusing to submit. -/
theorem zero_liquidity_submission :
    lParamIdx 1000 0 = { amount := 0, transferAmount := 0, debtToCover := 0 }
      ∧ lParamSizing (9 * 10 ^ 17) 1000 0
          = { amount := 0, transferAmount := 0, debtToCover := 0 } := by
  constructor
  · decide
  · decide

/-! ### Health Scanner (src/index.js lines 102-140, src/unnamed/part_000 lines 602-641) -/

/-- One decoded health record: `{ pool, user, healthFactor }` (the block
field of part_000 is omitted; no claim mentions it). -/
structure HealthRecord where
  pool : String
  user : String
  healthFactor : Nat
  deriving DecidableEq, Repr

/-- `ethers.constants.WeiPerEther`, 1.0 in 18-decimal fixed point. -/
def WeiPerEther : Nat := 10 ^ 18

/-- `unhealthyUsers` of src/index.js lines 122-125: records with
`healthFactor.lte(WeiPerEther) && healthFactor.gt(0)`. -/
def unhealthyUsers (allUsersHealthRes : List HealthRecord) : List HealthRecord :=
  allUsersHealthRes.filter fun r =>
    decide (r.healthFactor ≤ WeiPerEther) && decide (0 < r.healthFactor)

/-- `wideUnhealthyUsers` of src/index.js lines 127-135: records with
`healthFactor.lt(WeiPerEther.mul(105).div(100)) && healthFactor.gte(WeiPerEther)`,
sorted ascending by health factor (JavaScript `sort` is stable; `mergeSort`
models it). -/
def wideUnhealthyUsers (allUsersHealthRes : List HealthRecord) : List HealthRecord :=
  (allUsersHealthRes.filter fun r =>
      decide (r.healthFactor < WeiPerEther * 105 / 100)
        && decide (WeiPerEther ≤ r.healthFactor)).mergeSort
    fun a b => decide (a.healthFactor ≤ b.healthFactor)

/-- `zeroHealthUsers` of src/index.js lines 137-140: records with
`healthFactor.eq(0)`. -/
def zeroHealthUsers (allUsersHealthRes : List HealthRecord) : List HealthRecord :=
  allUsersHealthRes.filter fun r => decide (r.healthFactor = 0)

/-- The watch-tier bound `WeiPerEther.mul(105).div(100)` is exactly 1.05e18. -/
theorem wideBound_eq : WeiPerEther * 105 / 100 = 105 * 10 ^ 16 := by
  norm_num [WeiPerEther]

/-- C9: the scan classifies a record as liquidatable exactly when
0 < healthFactor ≤ 1.0e18, as watch exactly when 1.0e18 ≤ healthFactor
< 1.05e18 (watch list sorted ascending by health factor), and as zeroed
exactly when healthFactor = 0; a zero health factor is excluded from the
liquidatable tier. -/
theorem health_tiers (rs : List HealthRecord) (r : HealthRecord) :
    (r ∈ unhealthyUsers rs ↔ r ∈ rs ∧ 0 < r.healthFactor ∧ r.healthFactor ≤ 10 ^ 18)
      ∧ (r ∈ wideUnhealthyUsers rs
          ↔ r ∈ rs ∧ 10 ^ 18 ≤ r.healthFactor ∧ r.healthFactor < 105 * 10 ^ 16)
      ∧ (wideUnhealthyUsers rs).Pairwise (fun a b => a.healthFactor ≤ b.healthFactor)
      ∧ (r ∈ zeroHealthUsers rs ↔ r ∈ rs ∧ r.healthFactor = 0)
      ∧ (r.healthFactor = 0 → r ∉ unhealthyUsers rs) := by
  refine ⟨?_, ?_, ?_, ?_, ?_⟩
  · simp only [unhealthyUsers, List.mem_filter, Bool.and_eq_true, decide_eq_true_eq,
      WeiPerEther]
    tauto
  · simp only [wideUnhealthyUsers, List.mem_mergeSort, List.mem_filter,
      Bool.and_eq_true, decide_eq_true_eq, wideBound_eq, WeiPerEther]
    tauto
  · have hs := @List.sorted_mergeSort HealthRecord
      (fun a b => decide (a.healthFactor ≤ b.healthFactor))
      (fun a b c hab hbc => by
        simp only [decide_eq_true_eq] at hab hbc ⊢
        omega)
      (fun a b => by
        simp only [Bool.or_eq_true, decide_eq_true_eq]
        omega)
      (rs.filter fun r =>
        decide (r.healthFactor < WeiPerEther * 105 / 100)
          && decide (WeiPerEther ≤ r.healthFactor))
    unfold wideUnhealthyUsers
    exact hs.imp fun h => by simpa using h
  · simp only [zeroHealthUsers, List.mem_filter, decide_eq_true_eq]
  · intro hz
    simp only [unhealthyUsers, List.mem_filter, Bool.and_eq_true, decide_eq_true_eq]
    omega

/-! ### Position Resolver (src/index.js lines 226-266, src/unnamed/part_000 lines 731-771) -/

/-- Decoded results of the balance / underlying multicall: each wrapper
contract's `balanceOf(user)` and `UNDERLYING_ASSET_ADDRESS()` answers.  The
multicall result list is positional — entry 2k is `bal(tokens[k])`, entry
2k+1 is `und(tokens[k])` for `tokens = mTokens ++ dTokens`, exactly the
order the request list is built in. -/
structure TokenEnv where
  bal : String → Nat
  und : String → String

/-- One entry of `mInfos` / `dInfos`: the decoded underlying-asset address
and the balance. -/
structure HoldingEntry where
  token : String
  amount : Nat
  deriving DecidableEq, Repr

/-- One entry of `tokensWithUnderlying`: lower-cased underlying address and
the wrapper (mToken) contract holding it. -/
structure UnderlyingEntry where
  token : String
  mtoken : String
  deriving DecidableEq, Repr

/-- The three accumulators of the decode loop. -/
structure ResolverState where
  mInfos : List HoldingEntry
  dInfos : List HoldingEntry
  tokensWithUnderlying : List UnderlyingEntry
  deriving DecidableEq, Repr

/-- JavaScript's `String.prototype.toLowerCase` on ASCII address strings:
every character lower-cased. -/
def strToLower (s : String) : String := ⟨s.data.map Char.toLower⟩

/-- Iteration `ii` of the decode loop (src/index.js lines 236-266): even
indices are balance results — pushed onto `mInfos` (collateral side, first
`mTokens.length * 2` indices) or `dInfos` when positive, together with the
following underlying-asset result; odd collateral-side indices populate
`tokensWithUnderlying`, deduplicated by first occurrence of the lower-cased
underlying address. -/
def resolverStep (env : TokenEnv) (mTokens dTokens : List String)
    (s : ResolverState) (ii : Nat) : ResolverState :=
  if ii % 2 = 0 then
    if 0 < env.bal ((mTokens ++ dTokens).getD (ii / 2) "") then
      if ii < mTokens.length * 2 then
        { s with mInfos := s.mInfos
            ++ [{ token := env.und ((mTokens ++ dTokens).getD (ii / 2) "")
                  amount := env.bal ((mTokens ++ dTokens).getD (ii / 2) "") }] }
      else
        { s with dInfos := s.dInfos
            ++ [{ token := env.und ((mTokens ++ dTokens).getD (ii / 2) "")
                  amount := env.bal ((mTokens ++ dTokens).getD (ii / 2) "") }] }
    else s
  else if ii < mTokens.length * 2 then
    if (s.tokensWithUnderlying.find? fun e =>
          e.token == strToLower (env.und ((mTokens ++ dTokens).getD (ii / 2) ""))).isNone then
      { s with tokensWithUnderlying := s.tokensWithUnderlying
          ++ [{ token := strToLower (env.und ((mTokens ++ dTokens).getD (ii / 2) ""))
                mtoken := mTokens.getD (ii / 2) "" }] }
    else s
  else s

/-- The whole decode loop: `for (let ii = 0; ii < tokenInfos.length; ii++)`
over the `2 * (mTokens.length + dTokens.length)` positional results, starting
from empty accumulators. -/
def positionResolve (env : TokenEnv) (mTokens dTokens : List String) : ResolverState :=
  (List.range (2 * (mTokens ++ dTokens).length)).foldl
    (resolverStep env mTokens dTokens) { mInfos := [], dInfos := [], tokensWithUnderlying := [] }

/-- A property preserved by every step of a left fold holds of the result. -/
theorem foldl_inv {α β : Type} {P : β → Prop} {f : β → α → β}
    (hstep : ∀ s x, P s → P (f s x)) :
    ∀ (l : List α) (s : β), P s → P (l.foldl f s) := by
  intro l
  induction l with
  | nil => exact fun s hs => hs
  | cons x xs ih => exact fun s hs => ih _ (hstep s x hs)

/-- A relation preserved stepwise between two left folds over the same list
is preserved by the folds. -/
theorem foldl_rel {α β γ : Type} {R : β → γ → Prop} {f : β → α → β} {g : γ → α → γ}
    (hstep : ∀ s s' x, R s s' → R (f s x) (g s' x)) :
    ∀ (l : List α) (s : β) (s' : γ), R s s' → R (l.foldl f s) (l.foldl g s') := by
  intro l
  induction l with
  | nil => exact fun s s' h => h
  | cons x xs ih => exact fun s s' h => ih _ _ (hstep s s' x h)

/-- C5 amended: the holdings lists never contain an amount = 0 entry and the
UnderlyingIndex has no duplicate keys, but the UnderlyingIndex population is
independent of the decoded balances — a zero-balance collateral wrapper
still contributes its (first-occurrence) underlying entry. -/
theorem position_resolver_invariants (env : TokenEnv) (mTokens dTokens : List String) :
    (∀ e ∈ (positionResolve env mTokens dTokens).mInfos, 0 < e.amount)
      ∧ (∀ e ∈ (positionResolve env mTokens dTokens).dInfos, 0 < e.amount)
      ∧ ((positionResolve env mTokens dTokens).tokensWithUnderlying.map
          (fun e => e.token)).Nodup
      ∧ (∀ env' : TokenEnv, env.und = env'.und →
          (positionResolve env mTokens dTokens).tokensWithUnderlying
            = (positionResolve env' mTokens dTokens).tokensWithUnderlying) := by
  have hmain :
      (∀ e ∈ (positionResolve env mTokens dTokens).mInfos, 0 < e.amount)
        ∧ (∀ e ∈ (positionResolve env mTokens dTokens).dInfos, 0 < e.amount)
        ∧ ((positionResolve env mTokens dTokens).tokensWithUnderlying.map
            (fun e => e.token)).Nodup := by
    unfold positionResolve
    refine foldl_inv (P := fun s : ResolverState =>
        (∀ e ∈ s.mInfos, 0 < e.amount) ∧ (∀ e ∈ s.dInfos, 0 < e.amount)
          ∧ (s.tokensWithUnderlying.map (fun e => e.token)).Nodup)
      (fun s ii hP => ?_) _ _ ?init
    case init =>
      exact ⟨fun e he => absurd he (List.not_mem_nil e),
        fun e he => absurd he (List.not_mem_nil e),
        List.nodup_nil⟩
    obtain ⟨h1, h2, h3⟩ := hP
    unfold resolverStep
    split_ifs with hpar hbal hcol hodd hnew
    · refine ⟨?_, h2, h3⟩
      intro e he
      rcases List.mem_append.mp he with hm | hm
      · exact h1 e hm
      · simp only [List.mem_singleton] at hm
        subst hm
        exact hbal
    · refine ⟨h1, ?_, h3⟩
      intro e he
      rcases List.mem_append.mp he with hm | hm
      · exact h2 e hm
      · simp only [List.mem_singleton] at hm
        subst hm
        exact hbal
    · exact ⟨h1, h2, h3⟩
    · refine ⟨h1, h2, ?_⟩
      simp only [List.map_append, List.map_cons, List.map_nil]
      rw [List.nodup_append]
      refine ⟨h3, List.nodup_singleton _, ?_⟩
      intro x hx hx'
      simp only [List.mem_singleton] at hx'
      subst hx'
      simp only [List.mem_map] at hx
      obtain ⟨e, he, hex⟩ := hx
      have := List.find?_eq_none.mp (Option.isNone_iff_eq_none.mp hnew) e he
      simp only [beq_iff_eq] at this
      exact this hex
    · exact ⟨h1, h2, h3⟩
    · exact ⟨h1, h2, h3⟩
  refine ⟨hmain.1, hmain.2.1, hmain.2.2, ?_⟩
  intro env' hund
  refine foldl_rel (R := fun (s s' : ResolverState) =>
      s.tokensWithUnderlying = s'.tokensWithUnderlying)
    (fun s s' ii h => ?_) _ _ _ rfl
  unfold resolverStep
  rw [← hund, ← h]
  split_ifs <;> first | rfl | exact h

/-- Decoded-call environment in which the only collateral wrapper W1 has
balance zero and underlying asset U1. -/
def zeroBalEnv : TokenEnv := { bal := fun _ => 0, und := fun _ => "U1" }

/-- C5 counterexample: with one collateral wrapper of balance zero, the
decode loop adds no holding (as claimed) but still adds the wrapper's
underlying to the UnderlyingIndex — zero-balance collateral wrappers are
not excluded from the UnderlyingIndex population. -/
theorem zero_balance_underlying_index_cex :
    zeroBalEnv.bal "W1" = 0
      ∧ (positionResolve zeroBalEnv ["W1"] []).mInfos = []
      ∧ (positionResolve zeroBalEnv ["W1"] []).tokensWithUnderlying
          = [{ token := "u1", mtoken := "W1" }] := by
  refine ⟨rfl, ?_, ?_⟩ <;> decide

/-! ### Collateral Selector (src/unnamed/part_000 lines 355-433 and 471-549) -/

/-- Remote reads the selector performs per asset.  `none` models the
underlying contract call throwing; each helper catches that itself. -/
structure OracleEnv where
  reserveConfigurationData : String → Option Nat
  assetPrice : String → Option Nat
  tokenDecimals : String → Option Nat

/-- `extractLiquidationBonus` (src/unnamed/part_000 lines 356-362):
`data.shr(32).and(0xFFFF)`. -/
def extractLiquidationBonus (configurationData : Nat) : Nat :=
  (configurationData >>> 32) &&& 0xFFFF

/-- `extractUsageAsCollateralEnabled` (src/unnamed/part_000 lines 408-413):
`data.shr(56).and(0x1).eq(1)`. -/
def extractUsageAsCollateralEnabled (configurationData : Nat) : Bool :=
  (configurationData >>> 56) &&& 0x1 = 1

/-- `getReserveConfiguration` (src/unnamed/part_000 lines 416-433): decodes
the packed word; on a failed call its catch block returns bonus 0 and
`usageAsCollateralEnabled = false`. -/
def getReserveConfiguration (env : OracleEnv) (assetAddress : String) : Nat × Bool :=
  match env.reserveConfigurationData assetAddress with
  | some data => (extractLiquidationBonus data, extractUsageAsCollateralEnabled data)
  | none => (0, false)

/-- `getAssetPrice` (src/unnamed/part_000 lines 379-393): on a failed lookup
its catch block returns `BigNumber.from(0)`. -/
def getAssetPrice (env : OracleEnv) (assetAddress : String) : Nat :=
  (env.assetPrice assetAddress).getD 0

/-- `getTokenDecimals` (src/unnamed/part_000 lines 396-405): on a failed
lookup its catch block returns the default 18. -/
def getTokenDecimals (env : OracleEnv) (tokenAddress : String) : Nat :=
  (env.tokenDecimals tokenAddress).getD 18

/-- Oracle price decimals assumed by the selector (line 475). -/
def oracleDecimals : Nat := 8

/-- A ranked collateral candidate (src/unnamed/part_000 lines 515-523). -/
structure CollateralCandidate where
  address : String
  balance : Nat
  price : Nat
  decimals : Nat
  valueUSD : Nat
  liquidationBonus : Nat
  usageAsCollateralEnabled : Bool
  deriving DecidableEq, Repr

/-- The candidate record built for one holding once it passes the
eligibility gate, with `valueUSD = price * balance / 10^decimals /
10^oracleDecimals` (truncating division, lines 498-501). -/
def mkCandidate (env : OracleEnv) (m : HoldingEntry) : CollateralCandidate :=
  { address := m.token
    balance := m.amount
    price := getAssetPrice env m.token
    decimals := getTokenDecimals env m.token
    valueUSD := getAssetPrice env m.token * m.amount
        / 10 ^ getTokenDecimals env m.token / 10 ^ oracleDecimals
    liquidationBonus := (getReserveConfiguration env m.token).1
    usageAsCollateralEnabled := (getReserveConfiguration env m.token).2 }

/-- The `collateralCandidates` accumulation loop of
`selectBestCollateralAsset` (src/unnamed/part_000 lines 474-529): per
holding, fetch the reserve configuration (`continue` when not
collateral-enabled), then fetch price and decimals and push the candidate. -/
def collateralCandidates (env : OracleEnv) (mInfos : List HoldingEntry) :
    List CollateralCandidate :=
  mInfos.foldl
    (fun acc mInfo =>
      if (getReserveConfiguration env mInfo.token).2 then acc ++ [mkCandidate env mInfo]
      else acc)
    []

/-- `selectBestCollateralAsset` (src/unnamed/part_000 lines 471-549): `null`
when no candidate, else the head of the candidates sorted descending by
`valueUSD` (stable JavaScript sort, modelled by `mergeSort`). -/
def selectBestCollateralAsset (env : OracleEnv) (mInfos : List HoldingEntry) :
    Option CollateralCandidate :=
  match collateralCandidates env mInfos with
  | [] => none
  | cands =>
    (cands.mergeSort fun a b => decide (b.valueUSD ≤ a.valueUSD)).head? 

/-- C6 counterexample: for a holding of asset A with 1000 units, a reserve
word with bit 56 set (collateral enabled) but a *failed* oracle price
lookup, the asset is still admitted as a candidate — with substitute price
0 — rather than excluded from candidacy. -/
def priceFailEnv : OracleEnv :=
  { reserveConfigurationData := fun _ => some (2 ^ 56)
    assetPrice := fun _ => none
    tokenDecimals := fun _ => some 6 }

/-- C6 fails on the code: the price lookup for asset A fails, yet A appears
in the candidate list (with substitute price 0 and value 0) and is even
returned as the selected best collateral. -/
theorem lookup_failure_candidacy_cex :
    priceFailEnv.assetPrice "A" = none
      ∧ collateralCandidates priceFailEnv [{ token := "A", amount := 1000 }]
          = [{ address := "A", balance := 1000, price := 0, decimals := 6,
               valueUSD := 0, liquidationBonus := 0, usageAsCollateralEnabled := true }]
      ∧ selectBestCollateralAsset priceFailEnv [{ token := "A", amount := 1000 }]
          = some { address := "A", balance := 1000, price := 0, decimals := 6,
                   valueUSD := 0, liquidationBonus := 0, usageAsCollateralEnabled := true } := by
  have hlist : collateralCandidates priceFailEnv [{ token := "A", amount := 1000 }]
      = [{ address := "A", balance := 1000, price := 0, decimals := 6,
           valueUSD := 0, liquidationBonus := 0, usageAsCollateralEnabled := true }] := by
    decide
  refine ⟨rfl, hlist, ?_⟩
  rw [selectBestCollateralAsset, hlist]
  simp

/-- C6 amended: candidacy is decided solely by the reserve-configuration
eligibility gate.  A failed reserve-configuration read defaults to
ineligible and so excludes the asset; failed price or decimals lookups
never exclude an asset — it is admitted with substitute values (price 0,
decimals 18); and no failure aborts the whole selection (the loop is total:
the candidate list is exactly the eligible holdings, in order). -/
theorem collateral_candidacy_characterization (env : OracleEnv)
    (mInfos : List HoldingEntry) :
    collateralCandidates env mInfos
        = (mInfos.filter fun m => (getReserveConfiguration env m.token).2).map
            (mkCandidate env)
      ∧ (∀ m : HoldingEntry, env.reserveConfigurationData m.token = none →
          (getReserveConfiguration env m.token).2 = false)
      ∧ (∀ m : HoldingEntry, env.assetPrice m.token = none →
          (mkCandidate env m).price = 0)
      ∧ (∀ m : HoldingEntry, env.tokenDecimals m.token = none →
          (mkCandidate env m).decimals = 18) := by
  have hgen : ∀ (l : List HoldingEntry) (acc : List CollateralCandidate),
      l.foldl
        (fun acc mInfo =>
          if (getReserveConfiguration env mInfo.token).2 then acc ++ [mkCandidate env mInfo]
          else acc)
        acc
        = acc ++ (l.filter fun m => (getReserveConfiguration env m.token).2).map
            (mkCandidate env) := by
    intro l
    induction l with
    | nil => intro acc; simp
    | cons m ms ih =>
      intro acc
      by_cases hm : (getReserveConfiguration env m.token).2
      · simp [List.filter_cons, hm, ih]
      · simp [List.filter_cons, hm, ih]
  refine ⟨hgen mInfos [], ?_, ?_, ?_⟩
  · intro m hfail
    simp [getReserveConfiguration, hfail]
  · intro m hfail
    simp [mkCandidate, getAssetPrice, hfail]
  · intro m hfail
    simp [mkCandidate, getTokenDecimals, hfail]

/-! ### Swap Route Aggregator (src/router-quotes.js) -/

/-- `SwapType.UNISWAP_V2` (src/router-quotes.js line 57). -/
def UNISWAP_V2 : Nat := 0

/-- `SwapType.UNISWAP_V3` (line 58). -/
def UNISWAP_V3 : Nat := 1

/-- `SwapType.AGRO_KITTY` (line 59). -/
def AGRO_KITTY : Nat := 2

/-- An encoded swap path: either `defaultAbiCoder.encode(["address[]"], ...)`
or the V3 `solidityPack(["address","uint24","address"], ...)`. -/
inductive PathEnc where
  | abiAddressList (tokens : List String)
  | packedV3 (tokenIn : String) (fee : Nat) (tokenOut : String)
  deriving DecidableEq, Repr

/-- A SwapQuote object.  `amountOut` is an `Option` because the AgroKitty
adapter's quote omits the field (the `amountOut:` line is commented out,
src/router-quotes.js line 263), as do the default / pass-through parameter
objects of `getLiquidationSwapParams`. -/
structure SwapQuote where
  swapType : Nat
  router : String
  path : PathEnc
  amountIn : Nat
  amountOut : Option Nat
  amountOutMin : Nat
  adapters : List String
  deriving DecidableEq, Repr

/-- The router / quoter addresses from `config.json` that
`RouterQuoteManager` uses. -/
structure BotConfig where
  punchRouter : String
  tradoRouter : String
  tradoQuoter : String
  agrokittyRouter : String
  deriving DecidableEq, Repr

/-- The `FormattedOffer` struct returned by AgroKitty's `findBestPath`
(src/router-quotes.js lines 224-247). -/
structure FormattedOffer where
  amounts : List Nat
  adapters : List String
  path : List String
  gasEstimate : Nat
  deriving DecidableEq, Repr

/-- A JavaScript venue-adapter result: a quote object, `null` (an explicit
`return null`), or `undefined` (the async function falling off its end —
`getAgroKittyQuote` does exactly that when `findBestPath` fails or yields no
positive output, src/router-quotes.js lines 252-276). -/
inductive JsVal where
  | jsUndefined
  | null
  | quote (q : SwapQuote)
  deriving DecidableEq, Repr

/-- The remote reads the three venue adapters perform; `none` models the
call reverting / throwing. -/
structure QuoteEnv where
  getAmountsOut : Nat → List String → Option (List Nat)
  quoteExactInput : PathEnc → Nat → Option Nat
  findBestPath : Nat → String → String → Nat → Option FormattedOffer

/-- `getV2Quote` (src/router-quotes.js lines 78-134): on a successful
`getAmountsOut` with more than one entry, quote the last amount with a 0.5
percent slippage haircut; otherwise fall through to the conservative
estimate `amountIn * 987 / 1000` (1.3 percent total cost) with the same
haircut.  The only `return null` sits in an outer catch no modelled read
can reach, so the adapter is total here. -/
def getV2Quote (env : QuoteEnv) (cfg : BotConfig) (tokenIn tokenOut : String)
    (amountIn : Nat) : SwapQuote :=
  match env.getAmountsOut amountIn [tokenIn, tokenOut] with
  | some amounts =>
    if 1 < amounts.length then
      { swapType := UNISWAP_V2, router := cfg.punchRouter
        path := .abiAddressList [tokenIn, tokenOut], amountIn := amountIn
        amountOut := some (amounts.getLastD 0)
        amountOutMin := amounts.getLastD 0 * 995 / 1000, adapters := [] }
    else
      { swapType := UNISWAP_V2, router := cfg.punchRouter
        path := .abiAddressList [tokenIn, tokenOut], amountIn := amountIn
        amountOut := some (amountIn * 987 / 1000)
        amountOutMin := amountIn * 987 / 1000 * 995 / 1000, adapters := [] }
  | none =>
      { swapType := UNISWAP_V2, router := cfg.punchRouter
        path := .abiAddressList [tokenIn, tokenOut], amountIn := amountIn
        amountOut := some (amountIn * 987 / 1000)
        amountOutMin := amountIn * 987 / 1000 * 995 / 1000, adapters := [] }

/-- The V3 fee tiers tested (src/router-quotes.js line 142). -/
def feeTiers : List Nat := [100, 500, 3000, 10000]

/-- `getV3Quote` (src/router-quotes.js lines 139-206): quote each fee tier
independently (a failed tier is skipped), keep the strictly largest output,
and return it with a 0.5 percent haircut — or `null` when no tier yielded a
positive output.  The tier loop of lines 151-177 is `v3BestFold`: state
(bestAmountOut, bestFee, bestPath), initially (0, 3000, null). -/
def v3BestFold (env : QuoteEnv) (tokenIn tokenOut : String) (amountIn : Nat) :
    Nat × Nat × Option PathEnc :=
  feeTiers.foldl
    (fun best fee =>
      match env.quoteExactInput (.packedV3 tokenIn fee tokenOut) amountIn with
      | some amountOut =>
        if best.1 < amountOut then (amountOut, fee, some (.packedV3 tokenIn fee tokenOut))
        else best
      | none => best)
    (0, 3000, none)

def getV3Quote (env : QuoteEnv) (cfg : BotConfig) (tokenIn tokenOut : String)
    (amountIn : Nat) : Option SwapQuote :=
  match (v3BestFold env tokenIn tokenOut amountIn).2.2 with
  | some bestPath =>
    if 0 < (v3BestFold env tokenIn tokenOut amountIn).1 then
      some { swapType := UNISWAP_V3, router := cfg.tradoRouter, path := bestPath,
             amountIn := amountIn,
             amountOut := some (v3BestFold env tokenIn tokenOut amountIn).1,
             amountOutMin := (v3BestFold env tokenIn tokenOut amountIn).1 * 995 / 1000,
             adapters := [] }
    else none
  | none => none

/-- `getAgroKittyQuote` (src/router-quotes.js lines 211-286): call
`findBestPath` with maxSteps 4; when the last amount is positive, return a
quote (1 percent haircut, `amountOut` field omitted); in every other case —
the call throwing, an empty amounts array, or a zero output — the inner
catch / failed guard falls off the end of the function, producing
JavaScript `undefined`, not `null`. -/
def getAgroKittyQuote (env : QuoteEnv) (cfg : BotConfig) (tokenIn tokenOut : String)
    (amountIn : Nat) : JsVal :=
  match env.findBestPath amountIn tokenIn tokenOut 4 with
  | some formattedOffer =>
    match formattedOffer.amounts.getLast? with
    | some amountOut =>
      if 0 < amountOut then
        .quote { swapType := AGRO_KITTY, router := cfg.agrokittyRouter
                 path := .abiAddressList formattedOffer.path, amountIn := amountIn
                 amountOut := none
                 amountOutMin := amountOut * 990 / 1000
                 adapters := formattedOffer.adapters }
      else .jsUndefined
    | none => .jsUndefined
  | none => .jsUndefined

/-- `getBestQuote` (src/router-quotes.js lines 291-344): only the AgroKitty
adapter is queried (the V2 and V3 calls are commented out).  The result
list is filtered with `quote !== null` — which `undefined` passes — so a
failed AgroKitty lookup reaches `bestQuote.amountOutMin` as `undefined` and
throws a TypeError, modelled as `Except.error ()`; `null` is answered only
when the adapter itself returned `null`.  Sorting a list of at most one
element is the identity. -/
def getBestQuote (env : QuoteEnv) (cfg : BotConfig) (tokenIn tokenOut : String)
    (amountIn : Nat) : Except Unit (Option SwapQuote) :=
  let agroKittyQuote := getAgroKittyQuote env cfg tokenIn tokenOut amountIn
  let validQuotes := [agroKittyQuote].filter fun q =>
    match q with
    | .null => false
    | _ => true
  if validQuotes.length = 0 then .ok none
  else
    match validQuotes.head? with
    | some (.quote q) => .ok (some q)
    | _ => .error ()

/-- The pair of swap parameter objects `getLiquidationSwapParams` returns
(src/router-quotes.js lines 420-423). -/
structure SwapParamsPair where
  sParamsToRepayLoan : SwapQuote
  sParamsToSendToReceiver : SwapQuote
  deriving DecidableEq, Repr

/-- The default repay-leg parameters (src/router-quotes.js lines 402-409 and
440-447): V2 swap type, punch router, direct path, `amountOutMin: 0`. -/
def defaultRepayParams (cfg : BotConfig) (collateralAsset debtAsset : String)
    (collateralAmount : Nat) : SwapQuote :=
  { swapType := UNISWAP_V2, router := cfg.punchRouter
    path := .abiAddressList [collateralAsset, debtAsset]
    amountIn := collateralAmount, amountOut := none
    amountOutMin := 0, adapters := [] }

/-- The default receiver-leg parameters (src/router-quotes.js lines 411-418
and 448-455), with `amountOutMin: 0`; `amountIn` is `debtAmountForReceiver`
on the normal path and 0 in the catch-all. -/
def defaultReceiverParams (cfg : BotConfig) (debtAsset wflowAddress : String)
    (amountIn : Nat) : SwapQuote :=
  { swapType := UNISWAP_V2, router := cfg.punchRouter
    path := .abiAddressList [debtAsset, wflowAddress]
    amountIn := amountIn, amountOut := none
    amountOutMin := 0, adapters := [] }

/-- `getLiquidationSwapParams` (src/router-quotes.js lines 349-458): get the
best repay quote (collateral to debt), derive `debtAmountForReceiver` from
its `amountOutMin` (0 when the quote is `null`); when the debt asset equals
WFLOW case-insensitively, build the pass-through receiver quote with
`amountOutMin := debtAmountForReceiver` (no `amountOut` field); otherwise
get a receiver quote when the amount is positive.  Missing quotes fall back
to the `amountOutMin: 0` defaults, and any thrown error — in particular the
TypeError `getBestQuote` raises when a venue lookup fails — is caught and
answered with the default pair. -/
def getLiquidationSwapParams (env : QuoteEnv) (cfg : BotConfig)
    (collateralAsset debtAsset : String) (collateralAmount : Nat)
    (wflowAddress : String) : SwapParamsPair :=
  let attempt : Except Unit SwapParamsPair := do
    let repayQuote ← getBestQuote env cfg collateralAsset debtAsset collateralAmount
    let debtAmountForReceiver := match repayQuote with
      | some q => q.amountOutMin
      | none => 0
    let receiverQuote ←
      if strToLower debtAsset = strToLower wflowAddress then
        pure (some { swapType := UNISWAP_V2, router := cfg.punchRouter,
                     path := .abiAddressList [debtAsset, wflowAddress],
                     amountIn := debtAmountForReceiver, amountOut := none,
                     amountOutMin := debtAmountForReceiver, adapters := [] })
      else if 0 < debtAmountForReceiver then
        getBestQuote env cfg debtAsset wflowAddress debtAmountForReceiver
      else
        pure none
    pure { sParamsToRepayLoan :=
             repayQuote.getD (defaultRepayParams cfg collateralAsset debtAsset collateralAmount)
           sParamsToSendToReceiver :=
             receiverQuote.getD
               (defaultReceiverParams cfg debtAsset wflowAddress debtAmountForReceiver) }
  match attempt with
  | .ok r => r
  | .error _ =>
    { sParamsToRepayLoan := defaultRepayParams cfg collateralAsset debtAsset collateralAmount
      sParamsToSendToReceiver := defaultReceiverParams cfg debtAsset wflowAddress 0 }

/-- Router / quoter addresses used by the concrete counterexamples. -/
def cfg0 : BotConfig :=
  { punchRouter := "punchR", tradoRouter := "tradoR", tradoQuoter := "tradoQ"
    agrokittyRouter := "agroR" }

/-- Environment in which the V2 venue succeeds (doubling `getAmountsOut`)
while the V3 and AgroKitty venues fail. -/
def v2OnlyEnv : QuoteEnv :=
  { getAmountsOut := fun amountIn _ => some [amountIn, 2 * amountIn]
    quoteExactInput := fun _ _ => none
    findBestPath := fun _ _ _ _ => none }

/-- C7 counterexample: with the V2 venue succeeding (output 200) and the
other venues failing, exactly one venue succeeds, so the claim demands that
quote be returned — but `getBestQuote` never consults V2 or V3 and, the
AgroKitty lookup having failed with `undefined`, throws a TypeError
(`Except.error`) instead of returning that quote or `null`. -/
theorem best_quote_claim_cex :
    (getV2Quote v2OnlyEnv cfg0 "A" "B" 100).amountOut = some 200
      ∧ getV3Quote v2OnlyEnv cfg0 "A" "B" 100 = none
      ∧ getBestQuote v2OnlyEnv cfg0 "A" "B" 100 = Except.error () := by
  refine ⟨rfl, rfl, rfl⟩

/-- C7 amended: `getBestQuote` consults only the AgroKitty adapter.  When
that adapter yields a quote it is returned unmodified; when the adapter
fell through with `undefined` (a failed or empty path search), the value
passes the `!== null` filter and the subsequent `amountOutMin` access
throws a TypeError instead of returning "none"; `null` is answered only
when the adapter itself returned `null`. -/
theorem best_quote_agro_only (env : QuoteEnv) (cfg : BotConfig)
    (tokenIn tokenOut : String) (amountIn : Nat) :
    getBestQuote env cfg tokenIn tokenOut amountIn
      = match getAgroKittyQuote env cfg tokenIn tokenOut amountIn with
        | .quote q => Except.ok (some q)
        | .jsUndefined => Except.error ()
        | .null => Except.ok none := by
  rcases hq : getAgroKittyQuote env cfg tokenIn tokenOut amountIn with _ | _ | q <;>
    simp [getBestQuote, hq]

/-- A haircut by a basis fraction k/1000 with k at most 1000 never exceeds
the original amount. -/
theorem haircut_div_le (n k : Nat) (hk : k ≤ 1000) : n * k / 1000 ≤ n := by
  have hmul : n * k ≤ n * 1000 := Nat.mul_le_mul_left n hk
  omega

/-- Environment in which only the AgroKitty path search succeeds, with final
output 500. -/
def agroOkEnv : QuoteEnv :=
  { getAmountsOut := fun _ _ => none
    quoteExactInput := fun _ _ => none
    findBestPath := fun amountIn tokenIn tokenOut _ =>
      some { amounts := [amountIn, 500], adapters := [], path := [tokenIn, tokenOut],
             gasEstimate := 0 } }

/-- C8 counterexample: a successful AgroKitty quote carries `amountOutMin`
(495 = 500 * 990 / 1000) but no `amountOut` field at all — the claim that
every adapter-produced quote carries both fields is false. -/
theorem agro_quote_missing_amountOut_cex :
    getAgroKittyQuote agroOkEnv cfg0 "A" "B" 100
      = JsVal.quote { swapType := 2, router := "agroR",
                      path := .abiAddressList ["A", "B"], amountIn := 100,
                      amountOut := none, amountOutMin := 495, adapters := [] }
      ∧ (getAgroKittyQuote agroOkEnv cfg0 "A" "B" 100
          |> fun v => match v with
            | JsVal.quote q => q.amountOut
            | _ => some 0)
        = none := by
  exact ⟨rfl, rfl⟩

/-- C8 amended: V2 and V3 quotes carry both `amountOut` and `amountOutMin`
with `amountOutMin ≤ amountOut` (0.5 percent haircut); an AgroKitty quote
carries no `amountOut` field, and its `amountOutMin` is the venue's
computed output discounted by 1 percent — so it still never exceeds that
output. -/
theorem adapter_quote_amountOutMin_bound (env : QuoteEnv) (cfg : BotConfig)
    (tokenIn tokenOut : String) (amountIn : Nat) :
    (∃ o, (getV2Quote env cfg tokenIn tokenOut amountIn).amountOut = some o
        ∧ (getV2Quote env cfg tokenIn tokenOut amountIn).amountOutMin ≤ o)
      ∧ (∀ q : SwapQuote, getV3Quote env cfg tokenIn tokenOut amountIn = some q →
          ∃ o, q.amountOut = some o ∧ q.amountOutMin ≤ o)
      ∧ (∀ q : SwapQuote,
          getAgroKittyQuote env cfg tokenIn tokenOut amountIn = JsVal.quote q →
            q.amountOut = none
              ∧ ∃ o, 0 < o ∧ q.amountOutMin = o * 990 / 1000 ∧ q.amountOutMin ≤ o) := by
  refine ⟨?_, ?_, ?_⟩
  · rcases hv : env.getAmountsOut amountIn [tokenIn, tokenOut] with _ | amounts <;>
      simp only [getV2Quote, hv]
    · exact ⟨amountIn * 987 / 1000, rfl, haircut_div_le _ _ (by norm_num)⟩
    · split_ifs with hl
      · exact ⟨amounts.getLastD 0, rfl, haircut_div_le _ _ (by norm_num)⟩
      · exact ⟨amountIn * 987 / 1000, rfl, haircut_div_le _ _ (by norm_num)⟩
  · intro q hq
    unfold getV3Quote at hq
    split at hq
    · split_ifs at hq with h0
      cases Option.some.inj hq
      exact ⟨(v3BestFold env tokenIn tokenOut amountIn).1, rfl,
        haircut_div_le _ _ (by norm_num)⟩
    · simp at hq
  · intro q hq
    unfold getAgroKittyQuote at hq
    split at hq
    · split at hq
      · split_ifs at hq with h0
        cases JsVal.quote.inj hq
        exact ⟨rfl, _, h0, rfl, haircut_div_le _ _ (by norm_num)⟩
      · simp at hq
    · simp at hq

/-- C10: `getLiquidationSwapParams` is total at its interface (its Lean type
returns a pair, mirroring the catch-all in the source: no `null`, no
propagated exception).  When the repay quote is unavailable the repay leg
falls back to the `amountOutMin = 0` default; when any internal error
occurs (the `Except.error` raised inside `getBestQuote`) both legs are the
`amountOutMin = 0` defaults; when a receiver quote is looked up and
unavailable the receiver leg is its `amountOutMin = 0` default; and when
the debt asset equals the WFLOW settlement asset (case-insensitively) the
receiver leg is the pass-through quote whose `amountOutMin` (and
`amountIn`) equal the repay leg's delivered `amountOutMin`. -/
theorem liquidation_swap_params_spec (env : QuoteEnv) (cfg : BotConfig)
    (collateralAsset debtAsset : String) (collateralAmount : Nat)
    (wflowAddress : String) :
    ((defaultRepayParams cfg collateralAsset debtAsset collateralAmount).amountOutMin = 0
        ∧ (defaultReceiverParams cfg debtAsset wflowAddress 0).amountOutMin = 0)
      ∧ (getBestQuote env cfg collateralAsset debtAsset collateralAmount = Except.ok none →
          (getLiquidationSwapParams env cfg collateralAsset debtAsset collateralAmount
              wflowAddress).sParamsToRepayLoan
            = defaultRepayParams cfg collateralAsset debtAsset collateralAmount)
      ∧ (getBestQuote env cfg collateralAsset debtAsset collateralAmount = Except.error () →
          getLiquidationSwapParams env cfg collateralAsset debtAsset collateralAmount
              wflowAddress
            = { sParamsToRepayLoan :=
                  defaultRepayParams cfg collateralAsset debtAsset collateralAmount
                sParamsToSendToReceiver :=
                  defaultReceiverParams cfg debtAsset wflowAddress 0 })
      ∧ (∀ q : SwapQuote,
          getBestQuote env cfg collateralAsset debtAsset collateralAmount
              = Except.ok (some q) →
            ¬(strToLower debtAsset = strToLower wflowAddress) →
            0 < q.amountOutMin →
            getBestQuote env cfg debtAsset wflowAddress q.amountOutMin = Except.ok none →
            (getLiquidationSwapParams env cfg collateralAsset debtAsset collateralAmount
                wflowAddress).sParamsToSendToReceiver
              = defaultReceiverParams cfg debtAsset wflowAddress q.amountOutMin)
      ∧ (strToLower debtAsset = strToLower wflowAddress →
          (getLiquidationSwapParams env cfg collateralAsset debtAsset collateralAmount
              wflowAddress).sParamsToSendToReceiver.amountOutMin
            = (getLiquidationSwapParams env cfg collateralAsset debtAsset collateralAmount
                wflowAddress).sParamsToRepayLoan.amountOutMin) := by
  refine ⟨⟨rfl, rfl⟩, ?_, ?_, ?_, ?_⟩
  · intro hr
    unfold getLiquidationSwapParams
    rw [hr]
    by_cases hw : strToLower debtAsset = strToLower wflowAddress <;>
      simp [hw, Except.bind, bind, pure, Except.pure]
  · intro hr
    unfold getLiquidationSwapParams
    rw [hr]
    simp [Except.bind, bind]
  · intro q hr hw hpos hrecv
    unfold getLiquidationSwapParams
    rw [hr]
    simp only [Except.bind, bind, hw, if_false, hpos, if_true, hrecv, pure, Except.pure]
    simp [hw, hpos, hrecv]
  · intro hw
    unfold getLiquidationSwapParams
    rcases hr : getBestQuote env cfg collateralAsset debtAsset collateralAmount with e | oq
    · simp [Except.bind, bind, defaultRepayParams, defaultReceiverParams]
    · rcases oq with _ | q <;>
        simp [Except.bind, bind, pure, Except.pure, hw, defaultRepayParams,
          defaultReceiverParams]
